import Mathlib

/-!
Verification of the transform-and-validate core of the analytics pipeline
(src/internal/transforms.py, src/internal/validation.py, src/internal/schema.py).

Shallow embedding conventions:
* staging rows are records of `Option String` fields plus the synthetic
  `_row_id` sequence number and `_load_timestamp`;
* DuckDB DECIMAL(p, 2) values are modelled as integers scaled by 100
  (hundredths / cents), DECIMAL(5, 1) as tenths: fixed-point decimals are
  exactly integer multiples of their scale unit;
* timestamps are integers in microseconds since the epoch, dates are
  epoch-day numbers; `TRY_CAST` string parsing is modelled on the literal
  fragment exercised by this pipeline (optional sign, digits, optional
  decimal point for numerics; dash-separated calendar dates), returning
  `none` exactly where DuckDB yields NULL;
* a database connection is a record of optional tables (a `none` table
  makes every query touching it fail) and queries that can raise are
  modelled in `Except String`.
-/

/-- SQL TRIM: remove leading and trailing spaces from a character list. -/
def trimChars (cs : List Char) : List Char :=
  ((cs.dropWhile (fun c => c == ' ')).reverse.dropWhile (fun c => c == ' ')).reverse

/-- Lowercase a single ASCII character, as SQL LOWER does on this data. -/
def lowerChar (c : Char) : Char :=
  if 'A' ≤ c ∧ c ≤ 'Z' then Char.ofNat (c.toNat + 32) else c

/-- SQL LOWER on a string (ASCII fragment). -/
def toLowerStr (s : String) : String := String.mk (s.data.map lowerChar)

/-- SQL TRIM on a string. -/
def sqlTrim (s : String) : String := String.mk (trimChars s.data)

/-- LOWER(TRIM(x)) applied to a nullable SQL value (NULL propagates). -/
def lowerTrim (x : Option String) : Option String := x.map (fun s => toLowerStr (sqlTrim s))

/-- REPLACE(s, a-comma, a-dot) from the fact_transactions projection. -/
def replaceCommaDot (s : String) : String :=
  String.mk (s.data.map (fun c => if c == ',' then '.' else c))

/-- Leading sign of a numeric literal: returns (isNegative, remaining chars). -/
def splitSign : List Char → Bool × List Char
  | '-' :: cs => (true, cs)
  | '+' :: cs => (false, cs)
  | cs => (false, cs)

/-- Numeric value of a digit string (most significant first). -/
def digitsVal (cs : List Char) : ℕ := cs.foldl (fun a c => a * 10 + (c.toNat - 48)) 0

/-- All characters are decimal digits. -/
def allDigits (cs : List Char) : Bool := cs.all (fun c => c.isDigit)

/-- Divide with rounding to nearest, ties away from zero, on naturals. -/
def roundDivNat (a b : ℕ) : ℕ := (2 * a + b) / (2 * b)

/-- Divide two integers rounding to nearest, ties away from zero
(the rounding DuckDB ROUND and DECIMAL casts use). -/
def roundDivAway (a b : ℤ) : ℤ :=
  let q : ℤ := roundDivNat a.natAbs b.natAbs
  if (0 ≤ a) = (0 ≤ b) then q else -q

/-- Parse the integer and fractional digit runs of a decimal literal.
Returns none unless the character list (sign already removed) is
digit-run [ dot digit-run ] with at least one digit. -/
def decParts (cs : List Char) : Option (List Char × List Char) :=
  let ip := cs.takeWhile (fun c => c != '.')
  match cs.dropWhile (fun c => c != '.') with
  | [] => if !ip.isEmpty && allDigits ip then some (ip, []) else none
  | _ :: fp =>
      if (!ip.isEmpty || !fp.isEmpty) && allDigits ip && allDigits fp then
        some (ip, fp)
      else none

/-- TRY_CAST(s AS DECIMAL(p, s10)): the value scaled by 10 ^ s10, rounded
half away from zero, or none when the literal is malformed or overflows
the declared precision. -/
def parseDecScaled (p s10 : ℕ) (str : String) : Option ℤ :=
  let (neg, cs) := splitSign (trimChars str.data)
  match decParts cs with
  | none => none
  | some (ip, fp) =>
      let scaledAbs : ℕ :=
        digitsVal ip * 10 ^ s10 + roundDivNat (digitsVal fp * 10 ^ s10) (10 ^ fp.length)
      if scaledAbs < 10 ^ p then
        some (if neg then -(scaledAbs : ℤ) else (scaledAbs : ℤ))
      else none

/-- TRY_CAST(s AS DECIMAL(10, 2)) in hundredths (cents). -/
def parseDecimal102 (str : String) : Option ℤ := parseDecScaled 10 2 str

/-- TRY_CAST(s AS DECIMAL(3, 2)) in hundredths. -/
def parseDecimal32 (str : String) : Option ℤ := parseDecScaled 3 2 str

/-- TRY_CAST(s AS INTEGER): 32-bit integer literal, none on malformed
input or overflow. -/
def parseInt32 (str : String) : Option ℤ :=
  let (neg, ds) := splitSign (trimChars str.data)
  if !ds.isEmpty && allDigits ds then
    let v : ℤ := if neg then -(digitsVal ds : ℤ) else (digitsVal ds : ℤ)
    if -2147483648 ≤ v ∧ v ≤ 2147483647 then some v else none
  else none

/-- Gregorian leap year. -/
def isLeap (y : ℕ) : Bool := (y % 4 == 0 && y % 100 != 0) || y % 400 == 0

/-- Days in a month of the proleptic Gregorian calendar. -/
def daysInMonth (y m : ℕ) : ℕ :=
  if m == 2 then (if isLeap y then 29 else 28)
  else if m == 4 || m == 6 || m == 9 || m == 11 then 30
  else 31

/-- Days since 1970-01-01 of a civil date (Gregorian calendar). -/
def epochDayOfCivil (y m d : ℤ) : ℤ :=
  let y2 := if m ≤ 2 then y - 1 else y
  let era := Int.fdiv y2 400
  let yoe := y2 - era * 400
  let mp := Int.fmod (m + 9) 12
  let doy := Int.fdiv (153 * mp + 2) 5 + d - 1
  let doe := yoe * 365 + Int.fdiv yoe 4 - Int.fdiv yoe 100 + doy
  era * 146097 + doe - 719468

/-- Split a character list on dashes. -/
def splitOnDash : List Char → List Char → List (List Char)
  | [], acc => [acc.reverse]
  | c :: rest, acc =>
      if c == '-' then acc.reverse :: splitOnDash rest []
      else splitOnDash rest (c :: acc)

/-- TRY_CAST(s AS DATE): dash-separated calendar date, validated against
the real calendar, as an epoch-day number; none when malformed. -/
def parseDate (str : String) : Option ℤ :=
  match splitOnDash (trimChars str.data) [] with
  | [ys, ms, ds] =>
      if !ys.isEmpty && allDigits ys && !ms.isEmpty && allDigits ms
          && !ds.isEmpty && allDigits ds then
        let y := digitsVal ys
        let m := digitsVal ms
        let d := digitsVal ds
        if 1 ≤ y ∧ y ≤ 9999 ∧ 1 ≤ m ∧ m ≤ 12 ∧ 1 ≤ d ∧ d ≤ daysInMonth y m then
          some (epochDayOfCivil y m d)
        else none
      else none
  | _ => none

/-- Microseconds per day. -/
def usPerDay : ℤ := 86400000000

/-- TRY_CAST(s AS TIMESTAMP) on the date-literal fragment this pipeline
exercises, in microseconds since the epoch. -/
def parseTimestamp (str : String) : Option ℤ := (parseDate str).map (fun d => d * usPerDay)

/-- DATE(t) of a timestamp: its epoch-day number. -/
def dateOfTimestamp (t : ℤ) : ℤ := Int.fdiv t usPerDay


/-! ## Data model: staging rows (schema.py staging DDL) and cleaned rows -/

/-- A raw_customers staging row (CREATE_STAGING_CUSTOMERS). -/
structure RawCustomer where
  _row_id : ℕ
  customer_id : Option String
  name : Option String
  email : Option String
  age : Option String
  city : Option String
  country : Option String
  signup_date : Option String
  favorite_team : Option String
  membership_tier : Option String
  gender : Option String
  _load_timestamp : ℤ
deriving DecidableEq

/-- A raw_transactions staging row (CREATE_STAGING_TRANSACTIONS). -/
structure RawTransaction where
  _row_id : ℕ
  transaction_id : Option String
  customer_id : Option String
  timestamp : Option String
  amount : Option String
  currency : Option String
  category : Option String
  merchant : Option String
  description : Option String
  _load_timestamp : ℤ
deriving DecidableEq

/-- A raw_sentiment staging row (CREATE_STAGING_SENTIMENT). -/
structure RawSentiment where
  _row_id : ℕ
  id : Option String
  user : Option String
  source : Option String
  text : Option String
  published_at : Option String
  topic : Option String
  tags : Option String
  sentiment_score : Option String
  engagement : Option String
  _load_timestamp : ℤ
deriving DecidableEq

/-- A dim_customers row (CREATE_DIM_CUSTOMERS); age in years, signup_date
as epoch day. -/
structure DimCustomer where
  customer_id : Option String
  name : Option String
  email : Option String
  age : Option ℤ
  city : Option String
  country : Option String
  favorite_team : Option String
  membership_tier : Option String
  signup_date : Option ℤ
  _loaded_at : ℤ
deriving DecidableEq

/-- A fact_transactions row (CREATE_FACT_TRANSACTIONS); amount_eur is the
DECIMAL(10, 2) value in hundredths (cents), transaction_date a timestamp
in microseconds. -/
structure FactTxn where
  transaction_id : Option String
  customer_id : Option String
  transaction_date : ℤ
  amount_eur : Option ℤ
  category : Option String
  merchant : Option String
  _source_row_id : ℕ
  _loaded_at : ℤ
deriving DecidableEq

/-- A fact_sentiment row (CREATE_FACT_SENTIMENT); sentiment_score is the
DECIMAL(3, 2) value in hundredths. -/
structure FactSent where
  post_id : Option String
  user_name : Option String
  topic : Option String
  sentiment_score : Option ℤ
  engagement : Option ℤ
  published_at : Option ℤ
  _source_row_id : ℕ
  _loaded_at : ℤ
deriving DecidableEq

/-- A customer_profile row (CREATE_CUSTOMER_PROFILE); total_spend and
avg_txn in cents, sports_affinity_ratio in hundredths (DECIMAL(3, 2)),
avg_days_between_txns in tenths of a day (DECIMAL(5, 1)), last_txn_date
as epoch day. -/
structure ProfileRow where
  customer_id : Option String
  txn_count : ℕ
  total_spend : Option ℤ
  avg_txn : Option ℤ
  last_txn_date : Option ℤ
  match_ticket_count : ℕ
  sports_affinity_ratio : Option ℤ
  avg_days_between_txns : Option ℤ
  _loaded_at : ℤ
deriving DecidableEq

/-! ## Deduplication

SELECT DISTINCT ON (k) * FROM t WHERE k IS NOT NULL ORDER BY k, ord
keeps, for every distinct non-null key, the first row of that key group
in ascending ord order.  `dedupBy` produces that set of representatives
(one per distinct non-null key, the minimal-ord row of its group, ties
resolved towards the earlier physical row). -/

/-- Minimum of a nonempty collection (head plus tail) by an integer
measure; on ties the earlier element wins. -/
def minByOrd (ord : α → ℤ) : α → List α → α
  | a, [] => a
  | a, b :: bs => if ord b < ord a then minByOrd ord b bs else minByOrd ord a bs

/-- The rows of a given non-null key. -/
def groupRows (key : α → Option K) [DecidableEq K] (rows : List α) (k : K) : List α :=
  rows.filter (fun r => key r == some k)

/-- The representative DISTINCT ON keeps for key k: the minimal-ord row
of the key group. -/
def repFor (key : α → Option K) [DecidableEq K] (ord : α → ℤ) (rows : List α) (k : K) :
    Option α :=
  match groupRows key rows k with
  | [] => none
  | a :: as => some (minByOrd ord a as)

/-- The distinct non-null keys, in first-occurrence order. -/
def distinctKeys (key : α → Option K) [DecidableEq K] (rows : List α) : List K :=
  (rows.filterMap key).dedup

/-- The deduplicated row set: one representative per distinct non-null
key. -/
def dedupBy (key : α → Option K) [DecidableEq K] (ord : α → ℤ) (rows : List α) : List α :=
  (distinctKeys key rows).filterMap (repFor key ord rows)

/-- Customer dedup: DISTINCT ON (customer_id) ordered by
(customer_id, _load_timestamp). -/
def dedupCust (rows : List RawCustomer) : List RawCustomer :=
  dedupBy (fun r => r.customer_id) (fun r => r._load_timestamp) rows

/-- Transaction dedup: DISTINCT ON (transaction_id) ordered by
(transaction_id, _row_id). -/
def dedupTxn (rows : List RawTransaction) : List RawTransaction :=
  dedupBy (fun r => r.transaction_id) (fun r => (r._row_id : ℤ)) rows

/-- Sentiment dedup: DISTINCT ON (id) ordered by (id, _load_timestamp). -/
def dedupSent (rows : List RawSentiment) : List RawSentiment :=
  dedupBy (fun r => r.id) (fun r => r._load_timestamp) rows


/-! ## Transform Engine (transforms.py)

The SELECT bodies of the INSERT ... SELECT statements are modelled as
pure row computations; the physical INSERT enforces the target DDL
constraints of schema.py (PRIMARY KEY, NOT NULL, CHECK, FOREIGN KEY) and
a violation makes the whole statement fail, inserting nothing. -/

/-- The dim_customers SELECT: normalize one deduplicated raw customer
row (load_dim_customers). -/
def normCust (now : ℤ) (r : RawCustomer) : DimCustomer :=
  { customer_id := r.customer_id
    name := some (toLowerStr (sqlTrim (r.name.getD "Unknown")))
    email := lowerTrim r.email
    age := r.age.bind parseInt32
    city := lowerTrim r.city
    country := r.country
    favorite_team := lowerTrim r.favorite_team
    membership_tier := lowerTrim r.membership_tier
    signup_date := r.signup_date.bind parseDate
    _loaded_at := now }

/-- All candidate dim_customers rows of a transform run. -/
def computeDimRows (rc : List RawCustomer) (now : ℤ) : List DimCustomer :=
  (dedupCust rc).map (normCust now)

/-- Row-level dim_customers constraints: customer_id PRIMARY KEY (non-null),
name NOT NULL, CHECK (age between 0 and 150). -/
def dimRowOkB (d : DimCustomer) : Bool :=
  d.customer_id.isSome && d.name.isSome &&
    (match d.age with
     | none => true
     | some v => decide (0 ≤ v ∧ v ≤ 150))

/-- Whether inserting new rows after old ones satisfies the dim_customers
constraints (key uniqueness over the whole table). -/
def dimInsertOkB (old new : List DimCustomer) : Bool :=
  new.all dimRowOkB && decide (((old ++ new).map (fun d => d.customer_id)).Nodup)

/-- The WHERE clause of load_fact_transactions.  Note that the amount
range test casts the raw amount text with no comma replacement. -/
def keepTxn (dim : List DimCustomer) (t : RawTransaction) : Bool :=
  t.customer_id.isSome &&
    decide (t.customer_id ∈ dim.map (fun d => d.customer_id)) &&
    (t.amount.bind parseDecimal102).any (fun a => decide (-100000 < a) && decide (a < 5000000))

/-- The fact_transactions SELECT projection for one surviving row. -/
def toFactRow (now : ℤ) (t : RawTransaction) : FactTxn :=
  { transaction_id := t.transaction_id
    customer_id := t.customer_id
    transaction_date := (t.timestamp.bind parseTimestamp).getD now
    amount_eur := (t.amount.map replaceCommaDot).bind parseDecimal102
    category := lowerTrim t.category
    merchant := t.merchant
    _source_row_id := t._row_id
    _loaded_at := now }

/-- All candidate fact_transactions rows, filtered against the current
dim_customers contents. -/
def computeFactRows (rt : List RawTransaction) (dim : List DimCustomer) (now : ℤ) :
    List FactTxn :=
  ((dedupTxn rt).filter (keepTxn dim)).map (toFactRow now)

/-- Row-level fact_transactions constraints for an inserted row:
transaction_id PRIMARY KEY, customer_id / transaction_date / amount_eur /
category NOT NULL, FOREIGN KEY into dim_customers. -/
def factRowOkB (dim : List DimCustomer) (f : FactTxn) : Bool :=
  f.transaction_id.isSome && f.customer_id.isSome && f.amount_eur.isSome &&
    f.category.isSome && decide (f.customer_id ∈ dim.map (fun d => d.customer_id))

/-- Whether inserting new fact rows satisfies the fact_transactions
constraints. -/
def factInsertOkB (dim : List DimCustomer) (old new : List FactTxn) : Bool :=
  new.all (factRowOkB dim) &&
    decide (((old ++ new).map (fun f => f.transaction_id)).Nodup)

/-- The fact_sentiment SELECT projection (load_fact_sentiment). -/
def normSent (now : ℤ) (r : RawSentiment) : FactSent :=
  { post_id := r.id
    user_name := lowerTrim r.user
    topic := lowerTrim r.topic
    sentiment_score := r.sentiment_score.bind parseDecimal32
    engagement := r.engagement.bind parseInt32
    published_at := r.published_at.bind parseTimestamp
    _source_row_id := r._row_id
    _loaded_at := now }

/-- All candidate fact_sentiment rows (the WHERE id IS NOT NULL of the
outer SELECT is kept although dedup already discards null ids). -/
def computeSentRows (rs : List RawSentiment) (now : ℤ) : List FactSent :=
  ((dedupSent rs).filter (fun r => r.id.isSome)).map (normSent now)

/-- Row-level fact_sentiment constraint: post_id PRIMARY KEY. -/
def sentInsertOkB (old new : List FactSent) : Bool :=
  new.all (fun s => s.post_id.isSome) &&
    decide (((old ++ new).map (fun s => s.post_id)).Nodup)

/-! ### Customer profile aggregation (load_customer_profile) -/

/-- SQL equality of two nullable values: NULL never matches. -/
def sqlEqOptStr (a b : Option String) : Bool :=
  match a, b with
  | some x, some y => x == y
  | _, _ => false

/-- MAX aggregate over the integers of a group (none when empty). -/
def sqlMax (l : List ℤ) : Option ℤ :=
  match l with
  | [] => none
  | a :: as => some (as.foldl max a)

/-- MIN aggregate over the integers of a group (none when empty). -/
def sqlMin (l : List ℤ) : Option ℤ :=
  match l with
  | [] => none
  | a :: as => some (as.foldl min a)

/-- Naive substring test for the LIKE percent-sports-percent pattern. -/
def containsSub (p : List Char) : List Char → Bool
  | [] => p.isEmpty
  | c :: rest => (p.isPrefixOf (c :: rest)) || containsSub p rest

/-- category LIKE a-percent-sports-percent pattern OR category equals
match_tickets (NULL category matches neither). -/
def sportsCatB (c : Option String) : Bool :=
  match c with
  | none => false
  | some s => containsSub "sports".data s.data || s == "match_tickets"

/-- category equals the reserved ticket category. -/
def isTicketsB (c : Option String) : Bool := c == some "match_tickets"

/-- The customer_profile row aggregated for one customer_id group of the
LEFT JOIN (see the field-unit conventions on ProfileRow). -/
def profileFor (now : ℤ) (facts : List FactTxn) (cid : Option String) : ProfileRow :=
  let m := facts.filter (fun f => sqlEqOptStr cid f.customer_id)
  let cnt := ((m.filterMap (fun f => f.transaction_id)).dedup).length
  let amounts := m.filterMap (fun f => f.amount_eur)
  let dates := m.map (fun f => dateOfTimestamp f.transaction_date)
  let mt := (((m.filter (fun f => isTicketsB f.category)).filterMap
      (fun f => f.transaction_id)).dedup).length
  let sp := (((m.filter (fun f => sportsCatB f.category)).filterMap
      (fun f => f.transaction_id)).dedup).length
  let span : Option ℤ :=
    match sqlMax dates, sqlMin dates with
    | some a, some b => some (a - b)
    | _, _ => none
  { customer_id := cid
    txn_count := cnt
    total_spend := match amounts with | [] => none | _ => some amounts.sum
    avg_txn := match amounts with
      | [] => none
      | _ => some (roundDivAway amounts.sum (amounts.length : ℤ))
    last_txn_date := sqlMax dates
    match_ticket_count := mt
    sports_affinity_ratio :=
      if cnt = 0 then none else some (roundDivAway ((sp : ℤ) * 100) (cnt : ℤ))
    avg_days_between_txns :=
      match span with
      | none => none
      | some sv =>
          if (cnt : ℤ) - 1 = 0 then none
          else some (roundDivAway (sv * 10) ((cnt : ℤ) - 1))
    _loaded_at := now }

/-- customer_profile rows: one per customer_id group of dim_customers
(GROUP BY c.customer_id over the LEFT JOIN). -/
def computeProfile (dims : List DimCustomer) (facts : List FactTxn) (now : ℤ) :
    List ProfileRow :=
  ((dims.map (fun d => d.customer_id)).dedup).map (profileFor now facts)

/-- Row-level customer_profile constraints: customer_id PRIMARY KEY and
the declared DECIMAL precisions (10,2 / 3,2 / 5,1). -/
def profRowOkB (p : ProfileRow) : Bool :=
  p.customer_id.isSome &&
    (match p.total_spend with | none => true | some v => decide (v.natAbs < 10 ^ 10)) &&
    (match p.avg_txn with | none => true | some v => decide (v.natAbs < 10 ^ 10)) &&
    (match p.sports_affinity_ratio with | none => true | some v => decide (v.natAbs < 10 ^ 3)) &&
    (match p.avg_days_between_txns with | none => true | some v => decide (v.natAbs < 10 ^ 5))

/-- Whether inserting new profile rows satisfies the customer_profile
constraints. -/
def profInsertOkB (old new : List ProfileRow) : Bool :=
  new.all profRowOkB && decide (((old ++ new).map (fun p => p.customer_id)).Nodup)

/-! ## The store and the stepwise transform (transforms.py control flow)

A connection sees each table either present (some rows) or absent
(none); a query touching an absent table raises.  Every load step is
wrapped in try/except in the source and is therefore a total function
recording an error entry; create_tables is not wrapped, so its failure
(modelled by the ddlOk flag of the store) propagates out of
transform_all. -/

/-- The state of the DuckDB store as seen by one component. -/
structure DB where
  rawCustomers : Option (List RawCustomer)
  rawTransactions : Option (List RawTransaction)
  rawSentiment : Option (List RawSentiment)
  dimCustomers : Option (List DimCustomer)
  factTransactions : Option (List FactTxn)
  factSentiment : Option (List FactSent)
  customerProfile : Option (List ProfileRow)
  ddlOk : Bool

/-- create_tables: four CREATE TABLE IF NOT EXISTS statements, not
guarded by try/except; a DDL failure escapes. -/
def createTables (db : DB) : Except String DB :=
  if db.ddlOk then
    .ok { db with
      dimCustomers := some (db.dimCustomers.getD [])
      factTransactions := some (db.factTransactions.getD [])
      factSentiment := some (db.factSentiment.getD [])
      customerProfile := some (db.customerProfile.getD []) }
  else .error "create_tables failed"

/-- load_dim_customers: guarded by try/except; on any query failure or
constraint violation the step only records an error entry. -/
def loadDimStep (db : DB) (now : ℤ) : DB × String :=
  match db.rawCustomers, db.dimCustomers with
  | some raws, some dim =>
      let rows := computeDimRows raws now
      if dimInsertOkB dim rows then
        ({ db with dimCustomers := some (dim ++ rows) }, "dim_customers loaded")
      else (db, "ERROR in dim_customers")
  | _, _ => (db, "ERROR in dim_customers")

/-- load_fact_transactions: guarded by try/except. -/
def loadFactStep (db : DB) (now : ℤ) : DB × String :=
  match db.rawTransactions, db.dimCustomers, db.factTransactions with
  | some raws, some dim, some fact =>
      let rows := computeFactRows raws dim now
      if factInsertOkB dim fact rows then
        ({ db with factTransactions := some (fact ++ rows) }, "fact_transactions loaded")
      else (db, "ERROR in fact_transactions")
  | _, _, _ => (db, "ERROR in fact_transactions")

/-- load_fact_sentiment: guarded by try/except. -/
def loadSentStep (db : DB) (now : ℤ) : DB × String :=
  match db.rawSentiment, db.factSentiment with
  | some raws, some sent =>
      let rows := computeSentRows raws now
      if sentInsertOkB sent rows then
        ({ db with factSentiment := some (sent ++ rows) }, "fact_sentiment loaded")
      else (db, "ERROR in fact_sentiment")
  | _, _ => (db, "ERROR in fact_sentiment")

/-- load_customer_profile: guarded by try/except. -/
def loadProfileStep (db : DB) (now : ℤ) : DB × String :=
  match db.dimCustomers, db.factTransactions, db.customerProfile with
  | some dim, some fact, some prof =>
      let rows := computeProfile dim fact now
      if profInsertOkB prof rows then
        ({ db with customerProfile := some (prof ++ rows) }, "customer_profile loaded")
      else (db, "ERROR in customer_profile")
  | _, _, _ => (db, "ERROR in customer_profile")

/-- DataTransformer.transform_all: create_tables (unguarded), then the
four guarded load steps; returns the step report. -/
def transformAll (db : DB) (now : ℤ) : Except String (DB × List String) :=
  match createTables db with
  | .error e => .error e
  | .ok db0 =>
      let p1 := loadDimStep db0 now
      let p2 := loadFactStep p1.1 now
      let p3 := loadSentStep p2.1 now
      let p4 := loadProfileStep p3.1 now
      .ok (p4.1, ["Tables created", p1.2, p2.2, p3.2, p4.2])

/-- A full transform run against freshly created empty target tables
with both staging tables present (the lifecycle assumed in section 3 of
the design: targets empty or recreated before insertion). -/
def runTransform (rc : List RawCustomer) (rt : List RawTransaction) (now : ℤ) : DB :=
  let db : DB :=
    { rawCustomers := some rc, rawTransactions := some rt, rawSentiment := some []
      dimCustomers := some [], factTransactions := some [], factSentiment := some []
      customerProfile := some [], ddlOk := true }
  (loadFactStep (loadDimStep db now).1 now).1

/-- The dim_customers contents after runTransform. -/
def runDim (rc : List RawCustomer) (rt : List RawTransaction) (now : ℤ) : List DimCustomer :=
  ((runTransform rc rt now).dimCustomers).getD []

/-- The fact_transactions contents after runTransform. -/
def runFact (rc : List RawCustomer) (rt : List RawTransaction) (now : ℤ) : List FactTxn :=
  ((runTransform rc rt now).factTransactions).getD []

/-! ## Validation Engine (validation.py) -/

/-- One entry of high_null_columns: column name, null count and null
rate (the human-readable warning string it also carries is determined by
the rate). -/
structure NullFlag where
  name : String
  null_count : ℕ
  null_rate : ℚ
deriving DecidableEq

/-- The per-table result of _validate_table. -/
structure TableCheck where
  row_count : ℕ
  columns : List String
  high_null_columns : List NullFlag
deriving DecidableEq

/-- One duplicate-key group of _find_duplicates. -/
structure DupEntry where
  key : String
  occurrences : ℕ
deriving DecidableEq

/-- The result of _find_duplicates (found=false, count=0, no groups when
there is no duplicate). -/
structure DupCheck where
  found : Bool
  count : ℕ
  duplicates : List DupEntry
deriving DecidableEq

/-- The result of _find_orphan_keys. -/
structure OrphanCheck where
  found : Bool
  count : ℕ
  note : String
deriving DecidableEq

/-- The result of _check_foreign_keys. -/
structure RefIntCheck where
  valid : Bool
  orphan_count : ℕ
  note : String
deriving DecidableEq

/-- Does a column name denote an internal column (skipped by the null
profile loop)? -/
def startsUnderscore (s : String) : Bool :=
  match s.data with
  | c :: _ => c == '_'
  | [] => false

/-- Null count of column i over positional rows. -/
def colNull (rows : List (List (Option α))) (i : ℕ) : ℕ :=
  rows.countP (fun r => (r.getD i none).isNone)

/-- Null rate of column i: guarded division, 0 for an empty table. -/
def nullRate (rows : List (List (Option α))) (i : ℕ) : ℚ :=
  if 0 < rows.length then (colNull rows i : ℚ) / (rows.length : ℚ) else 0

/-- The loop of _validate_table over the column list: skip internal
columns, flag a column when its null rate exceeds the 0.30 threshold
(NULL_RATE_WARNING). -/
def buildFlags (rows : List (List (Option α))) : List String → ℕ → List NullFlag
  | [], _ => []
  | c :: cs, i =>
      if startsUnderscore c then buildFlags rows cs (i + 1)
      else if 3 / 10 < nullRate rows i then
        { name := c, null_count := colNull rows i, null_rate := nullRate rows i } ::
          buildFlags rows cs (i + 1)
      else buildFlags rows cs (i + 1)

/-- _validate_table on a table given as a header plus positional rows of
nullable cells. -/
def validateTable (cols : List String) (rows : List (List (Option α))) : TableCheck :=
  { row_count := rows.length, columns := cols, high_null_columns := buildFlags rows cols 0 }

/-- Insert into a list sorted by descending occurrence count. -/
def insertDescBy (e : DupEntry) : List DupEntry → List DupEntry
  | [] => [e]
  | x :: xs => if x.occurrences < e.occurrences then e :: x :: xs else x :: insertDescBy e xs

/-- Sort duplicate groups by descending occurrence count (ORDER BY cnt
DESC). -/
def sortDescOcc : List DupEntry → List DupEntry
  | [] => []
  | x :: xs => insertDescBy x (sortDescOcc xs)

/-- _find_duplicates over the key column values: group non-null keys,
keep groups with more than one row, sort by descending count. -/
def findDuplicates (keys : List (Option String)) : DupCheck :=
  let ks := (keys.filterMap id).dedup
  let dups := (ks.map (fun k =>
      ({ key := k, occurrences := keys.countP (fun y => y == some k) } : DupEntry))).filter
    (fun e => 1 < e.occurrences)
  let sorted := sortDescOcc dups
  match sorted with
  | [] => { found := false, count := 0, duplicates := [] }
  | _ => { found := true, count := sorted.length, duplicates := sorted }

/-- SQL three-valued x NOT IN (values): TRUE exactly when no value is
NULL and none equals x. -/
def sqlNotInB (x : String) (ys : List (Option String)) : Bool :=
  ys.all (fun y => !(y == (none : Option String)) && !(y == some x))

/-- The WHERE predicate of the raw orphan query for one transaction key:
customer_id IS NOT NULL AND customer_id NOT IN (customer ids). -/
def orphanPredB (custIds : List (Option String)) (cid : Option String) : Bool :=
  match cid with
  | none => false
  | some x => sqlNotInB x custIds

/-- _find_orphan_keys: count raw transactions whose raw customer_id is
non-null and passes the three-valued NOT IN against raw_customers. -/
def findOrphanKeys (custs : List RawCustomer) (txns : List RawTransaction) : OrphanCheck :=
  let c := txns.countP (fun t => orphanPredB (custs.map (fun r => r.customer_id)) t.customer_id)
  { found := decide (0 < c), count := c,
    note := if 0 < c then "Transactions with non-existent customer_id" else "None" }

/-- _check_foreign_keys: count cleaned fact rows whose customer_id
passes NOT IN against dim_customers. -/
def checkForeignKeys (facts : List FactTxn) (dims : List DimCustomer) : RefIntCheck :=
  let c := facts.countP (fun f => orphanPredB (dims.map (fun d => d.customer_id)) f.customer_id)
  { valid := decide (c = 0), orphan_count := c,
    note := if c = 0 then "All foreign keys valid" else "orphan rows" }

/-! ### The two validation passes

_validate_table reads the header and per-column null counts, so for the
null profile a typed row is presented as its positional null mask; each
helper is guarded (try/except) and a failed query yields an error value
in the corresponding slot.  The dim_customers uniqueness comparison in
validate_transformed_data runs two queries outside any try/except. -/

/-- Null mask of one nullable cell. -/
def optMask (o : Option α) : Option Unit := o.map (fun _ => ())

/-- raw_customers header. -/
def rawCustomerCols : List String :=
  ["_row_id", "customer_id", "name", "email", "age", "city", "country",
   "signup_date", "favorite_team", "membership_tier", "gender", "_load_timestamp"]

/-- raw_customers row null mask. -/
def rawCustomerMask (r : RawCustomer) : List (Option Unit) :=
  [some (), optMask r.customer_id, optMask r.name, optMask r.email, optMask r.age,
   optMask r.city, optMask r.country, optMask r.signup_date, optMask r.favorite_team,
   optMask r.membership_tier, optMask r.gender, some ()]

/-- raw_transactions header. -/
def rawTransactionCols : List String :=
  ["_row_id", "transaction_id", "customer_id", "timestamp", "amount", "currency",
   "category", "merchant", "description", "_load_timestamp"]

/-- raw_transactions row null mask. -/
def rawTransactionMask (t : RawTransaction) : List (Option Unit) :=
  [some (), optMask t.transaction_id, optMask t.customer_id, optMask t.timestamp,
   optMask t.amount, optMask t.currency, optMask t.category, optMask t.merchant,
   optMask t.description, some ()]

/-- raw_sentiment header. -/
def rawSentimentCols : List String :=
  ["_row_id", "id", "user", "source", "text", "published_at", "topic", "tags",
   "sentiment_score", "engagement", "_load_timestamp"]

/-- raw_sentiment row null mask. -/
def rawSentimentMask (r : RawSentiment) : List (Option Unit) :=
  [some (), optMask r.id, optMask r.user, optMask r.source, optMask r.text,
   optMask r.published_at, optMask r.topic, optMask r.tags, optMask r.sentiment_score,
   optMask r.engagement, some ()]

/-- dim_customers header. -/
def dimCols : List String :=
  ["customer_id", "name", "email", "age", "city", "country", "favorite_team",
   "membership_tier", "signup_date", "_loaded_at"]

/-- dim_customers row null mask. -/
def dimMask (d : DimCustomer) : List (Option Unit) :=
  [optMask d.customer_id, optMask d.name, optMask d.email, optMask d.age, optMask d.city,
   optMask d.country, optMask d.favorite_team, optMask d.membership_tier,
   optMask d.signup_date, some ()]

/-- fact_transactions header. -/
def factCols : List String :=
  ["transaction_id", "customer_id", "transaction_date", "amount_eur", "category",
   "merchant", "_source_row_id", "_loaded_at"]

/-- fact_transactions row null mask. -/
def factMask (f : FactTxn) : List (Option Unit) :=
  [optMask f.transaction_id, optMask f.customer_id, some (), optMask f.amount_eur,
   optMask f.category, optMask f.merchant, some (), some ()]

/-- customer_profile header. -/
def profileCols : List String :=
  ["customer_id", "txn_count", "total_spend", "avg_txn", "last_txn_date",
   "match_ticket_count", "sports_affinity_ratio", "avg_days_between_txns", "_loaded_at"]

/-- customer_profile row null mask. -/
def profileMask (p : ProfileRow) : List (Option Unit) :=
  [optMask p.customer_id, some (), optMask p.total_spend, optMask p.avg_txn,
   optMask p.last_txn_date, some (), optMask p.sports_affinity_ratio,
   optMask p.avg_days_between_txns, some ()]

/-- Guarded _validate_table on an optional table. -/
def tcheckE (t : Option (List ρ)) (cols : List String) (mask : ρ → List (Option Unit)) :
    Except String TableCheck :=
  match t with
  | some rows => .ok (validateTable cols (rows.map mask))
  | none => .error "table missing"

/-- Guarded _find_duplicates on an optional table. -/
def dupE (t : Option (List ρ)) (key : ρ → Option String) : Except String DupCheck :=
  match t with
  | some rows => .ok (findDuplicates (rows.map key))
  | none => .error "table missing"

/-- The result of validate_raw_data: per-table profile plus duplicate
and orphan checks, each independently guarded. -/
structure RawValReport where
  customers : Except String TableCheck
  customersDup : Except String DupCheck
  transactions : Except String TableCheck
  transactionsDup : Except String DupCheck
  transactionsOrphans : Except String OrphanCheck
  sentiment : Except String TableCheck
  sentimentDup : Except String DupCheck

/-- DataValidator.validate_raw_data: every check is guarded, so the pass
always returns a report. -/
def validateRawData (db : DB) : Except String RawValReport :=
  .ok
    { customers := tcheckE db.rawCustomers rawCustomerCols rawCustomerMask
      customersDup := dupE db.rawCustomers (fun r => r.customer_id)
      transactions := tcheckE db.rawTransactions rawTransactionCols rawTransactionMask
      transactionsDup := dupE db.rawTransactions (fun t => t.transaction_id)
      transactionsOrphans :=
        match db.rawCustomers, db.rawTransactions with
        | some c, some t => .ok (findOrphanKeys c t)
        | _, _ => .error "table missing"
      sentiment := tcheckE db.rawSentiment rawSentimentCols rawSentimentMask
      sentimentDup := dupE db.rawSentiment (fun r => r.id) }

/-- The result of validate_transformed_data. -/
structure TransValReport where
  dim_customers : Except String TableCheck
  fact_transactions : Except String TableCheck
  customer_profile : Except String TableCheck
  referential_integrity : Except String RefIntCheck
  customer_id_unique : Bool

/-- DataValidator.validate_transformed_data: the table profiles and the
referential-integrity check are guarded, but the COUNT / COUNT DISTINCT
uniqueness queries on dim_customers are not, so they raise when
dim_customers cannot be queried (COUNT(DISTINCT x) ignores NULLs). -/
def validateTransformedData (db : DB) : Except String TransValReport :=
  match db.dimCustomers with
  | none => .error "dim_customers missing"
  | some dim =>
      .ok
        { dim_customers := tcheckE db.dimCustomers dimCols dimMask
          fact_transactions := tcheckE db.factTransactions factCols factMask
          customer_profile := tcheckE db.customerProfile profileCols profileMask
          referential_integrity :=
            match db.factTransactions, db.dimCustomers with
            | some f, some d => .ok (checkForeignKeys f d)
            | _, _ => .error "table missing"
          customer_id_unique :=
            decide (dim.length = ((dim.filterMap (fun d => d.customer_id)).dedup).length) }


/-! ## Concrete fixtures used by the scenario parts of the claims -/

/-- Claim-side orphan counting, following the words of the spec: staging
transactions whose customer key is non-null and does not appear among
the customer_id values of the staging customers table. -/
def specOrphanCount (custs : List RawCustomer) (txns : List RawTransaction) : ℕ :=
  txns.countP (fun t =>
    match t.customer_id with
    | none => false
    | some x => !((custs.map (fun r => r.customer_id)).contains (some x)))

/-- CUST-0001 loaded at T1 = 1. -/
def custT1 : RawCustomer :=
  { _row_id := 0, customer_id := some "CUST-0001", name := some "Alice"
    email := some "a@ex.com", age := none, city := none, country := none
    signup_date := none, favorite_team := none, membership_tier := none
    gender := none, _load_timestamp := 1 }

/-- The same customer loaded again at T2 = 2, differing only in email
(and its physical row id). -/
def custT2 : RawCustomer :=
  { custT1 with _row_id := 1, email := some "b@ex.com", _load_timestamp := 2 }

/-- A plain valid staging customer C-1. -/
def custC1 : RawCustomer :=
  { _row_id := 0, customer_id := some "C-1", name := some "Ann", email := none
    age := none, city := none, country := none, signup_date := none
    favorite_team := none, membership_tier := none, gender := none
    _load_timestamp := 0 }

/-- A staging transaction for C-1 with the boundary amount 50000. -/
def txn50000 : RawTransaction :=
  { _row_id := 0, transaction_id := some "T-1", customer_id := some "C-1"
    timestamp := none, amount := some "50000", currency := some "EUR"
    category := some "misc", merchant := none, description := none
    _load_timestamp := 0 }

/-- A staging transaction for C-1 with amount 49999.99. -/
def txn49999 : RawTransaction :=
  { txn50000 with _row_id := 1, transaction_id := some "T-2", amount := some "49999.99" }

/-- The cleaned row expected for txn49999 at now = 0. -/
def factT2 : FactTxn :=
  { transaction_id := some "T-2", customer_id := some "C-1", transaction_date := 0
    amount_eur := some 4999999, category := some "misc", merchant := none
    _source_row_id := 1, _loaded_at := 0 }

/-- A staging customer whose age text parses to the out-of-range 200. -/
def custAge200 : RawCustomer := { custC1 with customer_id := some "C-9", age := some "200" }

/-- A staging customer with unparseable age and signup date. -/
def custBadFields : RawCustomer :=
  { custC1 with
    customer_id := some "C-7"
    age := some "abc"
    signup_date := some "not-a-date" }

/-- A staging transaction whose amount uses a decimal comma and denotes
1234.56, inside the open interval. -/
def txnComma : RawTransaction :=
  { txn50000 with transaction_id := some "T-C", amount := some "1234,56" }

/-- A staging transaction whose customer key differs from CUST-0001 only
by case. -/
def txnLowerCid : RawTransaction :=
  { txn50000 with
    transaction_id := some "T-L"
    customer_id := some "cust-0001"
    amount := some "10.00" }

/-- A staging customer with a NULL customer_id. -/
def custNullId : RawCustomer := { custC1 with customer_id := none }

/-- A staging transaction referencing a key no customer carries. -/
def txnOrphanX : RawTransaction :=
  { txn50000 with transaction_id := some "T-O", customer_id := some "X-1" }

/-- A store in which no table exists and DDL fails (a fresh or broken
database file). -/
def emptyDB : DB :=
  { rawCustomers := none, rawTransactions := none, rawSentiment := none
    dimCustomers := none, factTransactions := none, factSentiment := none
    customerProfile := none, ddlOk := true }

/-- The emptyDB store with failing DDL. -/
def brokenDB : DB := { emptyDB with ddlOk := false }

/-- A healthy store with every table present. -/
def okDB : DB :=
  { rawCustomers := some [], rawTransactions := some [], rawSentiment := some []
    dimCustomers := some [], factTransactions := some [], factSentiment := some []
    customerProfile := some [], ddlOk := true }

/-- A single-customer dimension used to exercise the profile. -/
def dimSolo : DimCustomer :=
  { customer_id := some "C-1", name := some "ann", email := none, age := none
    city := none, country := none, favorite_team := none, membership_tier := none
    signup_date := none, _loaded_at := 0 }

/-- A one-column table with exactly 30 percent nulls (3 of 10). -/
def rowsBoundary : List (List (Option String)) :=
  [[some "a"], [some "b"], [some "c"], [some "d"], [some "e"], [some "f"], [some "g"],
   [none], [none], [none]]

/-- A one-column table with 40 percent nulls (4 of 10). -/
def rowsFlagged : List (List (Option String)) :=
  [[some "a"], [some "b"], [some "c"], [some "d"], [some "e"], [some "f"],
   [none], [none], [none], [none]]

/-! ### Properties of the dedup step -/

theorem minByOrd_mem (ord : α → ℤ) : ∀ (l : List α) (a : α), minByOrd ord a l ∈ a :: l := by
  intro l
  induction l with
  | nil => intro a; simp [minByOrd]
  | cons b bs ih =>
    intro a
    by_cases h : ord b < ord a
    · simp only [minByOrd, if_pos h]
      rcases List.mem_cons.mp (ih b) with h' | h' <;> simp [h', List.mem_cons]
    · simp only [minByOrd, if_neg h]
      rcases List.mem_cons.mp (ih a) with h' | h' <;> simp [h', List.mem_cons]

theorem minByOrd_le (ord : α → ℤ) :
    ∀ (l : List α) (a : α), ∀ x ∈ a :: l, ord (minByOrd ord a l) ≤ ord x := by
  intro l
  induction l with
  | nil =>
    intro a x hx
    rcases List.mem_cons.mp hx with rfl | h
    · simp [minByOrd]
    · simp at h
  | cons b bs ih =>
    intro a x hx
    by_cases h : ord b < ord a
    · simp only [minByOrd, if_pos h]
      rcases List.mem_cons.mp hx with rfl | hx'
      · exact le_of_lt (lt_of_le_of_lt (ih b b (List.mem_cons_self b bs)) h)
      · exact ih b x hx'
    · simp only [minByOrd, if_neg h]
      push_neg at h
      rcases List.mem_cons.mp hx with h' | hx'
      · rw [h']
        exact ih a a (List.mem_cons_self a bs)
      · rcases List.mem_cons.mp hx' with h'' | hx''
        · rw [h'']
          exact le_trans (ih a a (List.mem_cons_self a bs)) h
        · exact ih a x (List.mem_cons.mpr (Or.inr hx''))

theorem mem_groupRows {K : Type} [DecidableEq K] {key : α → Option K} {rows : List α}
    {k : K} {r : α} :
    r ∈ groupRows key rows k ↔ r ∈ rows ∧ key r = some k := by
  simp [groupRows, List.mem_filter]

theorem repFor_eq_some {K : Type} [DecidableEq K] {key : α → Option K} {ord : α → ℤ}
    {rows : List α} {k : K} {r : α}
    (h : repFor key ord rows k = some r) :
    r ∈ rows ∧ key r = some k ∧ ∀ s ∈ rows, key s = some k → ord r ≤ ord s := by
  unfold repFor at h
  cases hg : groupRows key rows k with
  | nil => rw [hg] at h; simp at h
  | cons a as =>
    rw [hg] at h
    simp only [Option.some.injEq] at h
    subst h
    have hmem : minByOrd ord a as ∈ a :: as := minByOrd_mem ord as a
    rw [← hg] at hmem
    obtain ⟨h1, h2⟩ := mem_groupRows.mp hmem
    refine ⟨h1, h2, fun s hs hks => ?_⟩
    have : s ∈ groupRows key rows k := mem_groupRows.mpr ⟨hs, hks⟩
    rw [hg] at this
    exact minByOrd_le ord as a s this

theorem mem_distinctKeys {K : Type} [DecidableEq K] {key : α → Option K} {rows : List α}
    {k : K} :
    k ∈ distinctKeys key rows ↔ ∃ r ∈ rows, key r = some k := by
  simp [distinctKeys, List.mem_dedup, List.mem_filterMap]

theorem repFor_isSome {K : Type} [DecidableEq K] {key : α → Option K} {rows : List α}
    {k : K} (ord : α → ℤ)
    (h : k ∈ distinctKeys key rows) : ∃ r, repFor key ord rows k = some r := by
  obtain ⟨r, hr, hk⟩ := mem_distinctKeys.mp h
  have : r ∈ groupRows key rows k := mem_groupRows.mpr ⟨hr, hk⟩
  unfold repFor
  cases hg : groupRows key rows k with
  | nil => rw [hg] at this; simp at this
  | cons a as => exact ⟨_, rfl⟩

theorem mem_dedupBy {K : Type} [DecidableEq K] {key : α → Option K} {ord : α → ℤ}
    {rows : List α} {r : α} :
    r ∈ dedupBy key ord rows ↔
      ∃ k ∈ distinctKeys key rows, repFor key ord rows k = some r := by
  simp [dedupBy, List.mem_filterMap]

theorem dedupBy_subset {K : Type} [DecidableEq K] {key : α → Option K} {ord : α → ℤ}
    {rows : List α} {r : α}
    (h : r ∈ dedupBy key ord rows) : r ∈ rows := by
  obtain ⟨k, _, hrep⟩ := mem_dedupBy.mp h
  exact (repFor_eq_some hrep).1

/-- Mapping key over a filterMap of representatives recovers the key
list. -/
theorem map_key_filterMap {K : Type} [DecidableEq K] (key : α → Option K) (f : K → Option α)
    (hk : ∀ k r, f k = some r → key r = some k) :
    ∀ (ks : List K), (∀ k ∈ ks, ∃ r, f k = some r) →
      (ks.filterMap f).map key = ks.map some := by
  intro ks
  induction ks with
  | nil => intro _; simp
  | cons k ks ih =>
    intro h
    obtain ⟨r, hr⟩ := h k (List.mem_cons_self k ks)
    have hrest := ih (fun k' hk' => h k' (List.mem_cons.mpr (Or.inr hk')))
    simp [List.filterMap_cons, hr, hk k r hr, hrest]

theorem dedupBy_map_key {K : Type} [DecidableEq K] (key : α → Option K) (ord : α → ℤ)
    (rows : List α) :
    (dedupBy key ord rows).map key = (distinctKeys key rows).map some :=
  map_key_filterMap key (repFor key ord rows) (fun _ _ h => (repFor_eq_some h).2.1)
    (distinctKeys key rows) (fun _ hk => repFor_isSome ord hk)

theorem dedupBy_filterMap_key {K : Type} [DecidableEq K] (key : α → Option K) (ord : α → ℤ)
    (rows : List α) :
    (dedupBy key ord rows).filterMap key = distinctKeys key rows := by
  have h := congrArg (List.filterMap id) (dedupBy_map_key key ord rows)
  simpa [List.filterMap_map, Function.comp] using h

theorem nodup_dedupBy_keys {K : Type} [DecidableEq K] (key : α → Option K) (ord : α → ℤ)
    (rows : List α) :
    ((dedupBy key ord rows).map key).Nodup := by
  rw [dedupBy_map_key]
  exact (List.nodup_dedup _).map (fun a b => by simp)

/-- No row of the representative list carries a key outside of ks. -/
theorem groupRows_filterMap_not_mem {K : Type} [DecidableEq K] (key : α → Option K)
    (f : K → Option α)
    (hk : ∀ k r, f k = some r → key r = some k) (k : K) :
    ∀ (ks : List K), k ∉ ks → groupRows key (ks.filterMap f) k = [] := by
  intro ks
  induction ks with
  | nil => intro _; simp [groupRows]
  | cons k' ks ih =>
    intro h
    have hne : k' ≠ k := fun e => h (by simp [e])
    have hk' : k ∉ ks := fun e => h (List.mem_cons.mpr (Or.inr e))
    cases hf : f k' with
    | none => simpa [List.filterMap_cons, hf] using ih hk'
    | some r =>
      have : key r = some k' := hk k' r hf
      have hfilter : (key r == some k) = false := by
        simp [this, hne]
      simp only [List.filterMap_cons, hf, groupRows, List.filter_cons, hfilter]
      exact ih hk'

/-- In the representative list, the group of a key k of ks is the
singleton of its representative. -/
theorem groupRows_filterMap_mem {K : Type} [DecidableEq K] (key : α → Option K)
    (f : K → Option α)
    (hk : ∀ k r, f k = some r → key r = some k) (k : K) (r : α) :
    ∀ (ks : List K), ks.Nodup → k ∈ ks → f k = some r →
      groupRows key (ks.filterMap f) k = [r] := by
  intro ks
  induction ks with
  | nil => intro _ h; simp at h
  | cons k' ks ih =>
    intro hnd hmem hf
    have hnd' := List.nodup_cons.mp hnd
    rcases List.mem_cons.mp hmem with rfl | hmem'
    · have hnil := groupRows_filterMap_not_mem key f hk k ks hnd'.1
      simp only [List.filterMap_cons, hf, groupRows, List.filter_cons]
      have hkr : (key r == some k) = true := by simp [hk k r hf]
      simp only [hkr, if_pos rfl]
      simpa [groupRows] using hnil
    · have hne : k' ≠ k := fun e => hnd'.1 (e ▸ hmem')
      cases hf' : f k' with
      | none =>
        simpa [List.filterMap_cons, hf'] using ih hnd'.2 hmem' hf
      | some r' =>
        have hkr : key r' = some k' := hk k' r' hf'
        have hfilter : (key r' == some k) = false := by simp [hkr, hne]
        simp only [List.filterMap_cons, hf', groupRows, List.filter_cons, hfilter]
        exact ih hnd'.2 hmem' hf

/-- Dedup applied to its own output is the identity: every key group of
the output is a singleton whose representative is itself. -/
theorem dedupBy_idem {K : Type} [DecidableEq K] (key : α → Option K) (ord : α → ℤ)
    (rows : List α) :
    dedupBy key ord (dedupBy key ord rows) = dedupBy key ord rows := by
  have hkeys : distinctKeys key (dedupBy key ord rows) = distinctKeys key rows := by
    unfold distinctKeys
    rw [show (dedupBy key ord rows).filterMap key = distinctKeys key rows from
      dedupBy_filterMap_key key ord rows]
    exact List.dedup_eq_self.mpr (List.nodup_dedup _)
  show (distinctKeys key (dedupBy key ord rows)).filterMap
      (repFor key ord (dedupBy key ord rows)) = dedupBy key ord rows
  rw [hkeys]
  have hcongr : ∀ k ∈ distinctKeys key rows,
      repFor key ord (dedupBy key ord rows) k = repFor key ord rows k := by
    intro k hkmem
    obtain ⟨r, hr⟩ := repFor_isSome ord hkmem
    have hgroup : groupRows key (dedupBy key ord rows) k = [r] :=
      groupRows_filterMap_mem key (repFor key ord rows)
        (fun k r h => (repFor_eq_some h).2.1) k r
        (distinctKeys key rows) (List.nodup_dedup _) hkmem hr
    rw [repFor, hgroup, hr]
    rfl
  calc (distinctKeys key rows).filterMap (repFor key ord (dedupBy key ord rows))
      = (distinctKeys key rows).filterMap (repFor key ord rows) := by
        apply List.filterMap_congr
        intro a ha
        exact hcongr a ha
    _ = dedupBy key ord rows := rfl

/-! ### Facts about the parsers -/

theorem comma_not_digit {l : List Char} (h : allDigits l = true) : ',' ∉ l := by
  intro hm
  have h2 := List.all_eq_true.mp h _ hm
  simp at h2

theorem dropWhile_head_false {p : α → Bool} {l : List α} {c : α} {t : List α}
    (h : l.dropWhile p = c :: t) : p c = false := by
  induction l with
  | nil => simp at h
  | cons x xs ih =>
    rw [List.dropWhile_cons] at h
    by_cases hp : p x
    · rw [if_pos hp] at h
      exact ih h
    · rw [if_neg hp] at h
      obtain ⟨h1, h2⟩ := List.cons.inj h
      rw [← h1]
      simpa using hp

theorem comma_not_mem_decParts {cs ip fp : List Char}
    (h : decParts cs = some (ip, fp)) : ',' ∉ cs := by
  intro hm
  have hsplit := List.takeWhile_append_dropWhile (fun c => c != '.') cs
  unfold decParts at h
  split at h
  · rename_i heq
    dsimp only at h
    split at h
    · rename_i hcond
      have hall : allDigits (List.takeWhile (fun c => c != '.') cs) = true := by
        simp only [Bool.and_eq_true] at hcond
        exact hcond.2
      rw [← hsplit, heq, List.append_nil] at hm
      exact comma_not_digit hall hm
    · exact Option.noConfusion h
  · rename_i hc hfp heq
    dsimp only at h
    split at h
    · rename_i hcond
      simp only [Bool.and_eq_true] at hcond
      have hip : allDigits (List.takeWhile (fun c => c != '.') cs) = true := hcond.1.2
      have hfpd : allDigits hfp = true := hcond.2
      have hcdot : hc = '.' := by
        have h3 := dropWhile_head_false heq
        simpa using h3
      rw [← hsplit, heq] at hm
      rcases List.mem_append.mp hm with hmem | hmem
      · exact comma_not_digit hip hmem
      · rcases List.mem_cons.mp hmem with hh | hh
        · rw [hcdot] at hh
          exact absurd hh (by decide)
        · exact comma_not_digit hfpd hh
    · exact Option.noConfusion h

theorem comma_mem_splitSign {cs : List Char} (h : ',' ∈ cs) : ',' ∈ (splitSign cs).2 := by
  unfold splitSign
  split
  · rename_i cs'
    rcases List.mem_cons.mp h with hh | hh
    · exact absurd hh (by decide)
    · simpa using hh
  · rename_i cs'
    rcases List.mem_cons.mp h with hh | hh
    · exact absurd hh (by decide)
    · simpa using hh
  · simpa using h

theorem comma_not_mem_trim_of_parse {p s10 : ℕ} {s : String} {a : ℤ}
    (h : parseDecScaled p s10 s = some a) : ',' ∉ trimChars s.data := by
  intro hm
  have hm2 : ',' ∈ (splitSign (trimChars s.data)).2 := comma_mem_splitSign hm
  unfold parseDecScaled at h
  rcases hsp : splitSign (trimChars s.data) with ⟨neg, cs⟩
  rw [hsp] at h hm2
  simp only at h hm2
  cases hdp : decParts cs with
  | none => rw [hdp] at h; simp at h
  | some pr =>
    rcases pr with ⟨ip, fp⟩
    exact absurd hm2 (comma_not_mem_decParts hdp)

theorem parseDecScaled_eq_of_trim {p s10 : ℕ} {s t : String}
    (h : trimChars s.data = trimChars t.data) :
    parseDecScaled p s10 s = parseDecScaled p s10 t := by
  unfold parseDecScaled
  rw [h]

theorem trimChars_map_commaDot (l : List Char) :
    trimChars (l.map (fun c => if c == ',' then '.' else c)) =
      (trimChars l).map (fun c => if c == ',' then '.' else c) := by
  have hq : ((fun c : Char => c == ' ') ∘ (fun c => if c == ',' then '.' else c)) =
      (fun c : Char => c == ' ') := by
    funext c
    by_cases hc : c = ','
    · subst hc; decide
    · simp [Function.comp, hc]
  unfold trimChars
  rw [List.dropWhile_map, hq, ← List.map_reverse, List.dropWhile_map, hq, ← List.map_reverse]

/-- A successfully cast amount never contains a decimal comma, so the
comma-to-dot projection parses it to the same value. -/
theorem parse_replaceCommaDot {s : String} {a : ℤ} (h : parseDecimal102 s = some a) :
    parseDecimal102 (replaceCommaDot s) = some a := by
  have hnc : ',' ∉ trimChars s.data := comma_not_mem_trim_of_parse h
  have hid : (trimChars s.data).map (fun c => if c == ',' then '.' else c) =
      trimChars s.data := by
    have hpt : ∀ c ∈ trimChars s.data, (if c == ',' then '.' else c) = c := by
      intro c hcmem
      have hcc : ¬ (c = ',') := fun e => hnc (e ▸ hcmem)
      simp [hcc]
    calc (trimChars s.data).map (fun c => if c == ',' then '.' else c)
        = (trimChars s.data).map id := List.map_congr_left hpt
      _ = trimChars s.data := List.map_id _
  have heq : trimChars (replaceCommaDot s).data = trimChars s.data := by
    show trimChars (s.data.map (fun c => if c == ',' then '.' else c)) = trimChars s.data
    rw [trimChars_map_commaDot, hid]
  unfold parseDecimal102
  rw [parseDecScaled_eq_of_trim heq]
  exact h

/-! ### Facts about the transform run -/

theorem keepTxn_spec {dim : List DimCustomer} {t : RawTransaction}
    (h : keepTxn dim t = true) :
    t.customer_id ≠ none ∧ t.customer_id ∈ dim.map (fun d => d.customer_id) ∧
      ∃ a, t.amount.bind parseDecimal102 = some a ∧ -100000 < a ∧ a < 5000000 := by
  unfold keepTxn at h
  simp only [Bool.and_eq_true, decide_eq_true_eq] at h
  obtain ⟨⟨h1, h2⟩, h3⟩ := h
  refine ⟨by simpa [Option.isSome_iff_ne_none] using h1, h2, ?_⟩
  cases hamt : t.amount.bind parseDecimal102 with
  | none => rw [hamt] at h3; simp at h3
  | some a =>
      rw [hamt] at h3
      simp only [Option.any_some, Bool.and_eq_true, decide_eq_true_eq] at h3
      exact ⟨a, rfl, h3.1, h3.2⟩

theorem toFactRow_amount {t : RawTransaction} {a : ℤ} (now : ℤ)
    (h : t.amount.bind parseDecimal102 = some a) :
    (toFactRow now t).amount_eur = some a := by
  cases hs : t.amount with
  | none => rw [hs] at h; simp at h
  | some s =>
    rw [hs] at h
    simp only [Option.some_bind] at h
    simp only [toFactRow, hs, Option.map_some, Option.some_bind]
    exact parse_replaceCommaDot h

theorem computeDimRows_map_cid (rc : List RawCustomer) (now : ℤ) :
    (computeDimRows rc now).map (fun d => d.customer_id) =
      (dedupCust rc).map (fun r => r.customer_id) := by
  simp [computeDimRows, List.map_map, Function.comp, normCust]

theorem nodup_computeDim_cids (rc : List RawCustomer) (now : ℤ) :
    ((computeDimRows rc now).map (fun d => d.customer_id)).Nodup := by
  rw [computeDimRows_map_cid]
  have h := nodup_dedupBy_keys (fun r : RawCustomer => r.customer_id)
    (fun r => r._load_timestamp) rc
  simpa [dedupCust] using h

theorem runDim_eq (rc : List RawCustomer) (rt : List RawTransaction) (now : ℤ) :
    runDim rc rt now =
      if dimInsertOkB [] (computeDimRows rc now) then computeDimRows rc now else [] := by
  unfold runDim runTransform loadDimStep loadFactStep
  cases h1 : dimInsertOkB [] (computeDimRows rc now) <;>
    simp [h1] <;> (try split) <;> simp

theorem runFact_eq (rc : List RawCustomer) (rt : List RawTransaction) (now : ℤ) :
    runFact rc rt now =
      if factInsertOkB (runDim rc rt now) [] (computeFactRows rt (runDim rc rt now) now)
      then computeFactRows rt (runDim rc rt now) now else [] := by
  rw [runDim_eq]
  unfold runFact runTransform loadDimStep loadFactStep
  cases h1 : dimInsertOkB [] (computeDimRows rc now) <;>
    simp [h1] <;> (try split) <;> simp_all

/-! ## The claims -/

/-- C10: the per-source deduplication step (group by natural key,
discard null keys, pick the representative by the ascending tie-break
order of the source) is idempotent: applying customer, transaction or
sentiment dedup to its own output yields the identical set of rows. -/
theorem claim10_dedup_idempotent :
    ∀ (rc : List RawCustomer) (rt : List RawTransaction) (rs : List RawSentiment),
      dedupCust (dedupCust rc) = dedupCust rc ∧
      dedupTxn (dedupTxn rt) = dedupTxn rt ∧
      dedupSent (dedupSent rs) = dedupSent rs := by
  intro rc rt rs
  exact ⟨dedupBy_idem _ _ rc, dedupBy_idem _ _ rt, dedupBy_idem _ _ rs⟩

/-- C2: customer deduplication groups staging rows by customer_id,
discards rows with a null customer_id, keeps for every key exactly one
row, namely a minimal-load-timestamp row of its group (the unique such
row when timestamps differ), and on the two-row CUST-0001 fixture with
T1 < T2 it keeps the T1 version. -/
theorem claim2_customer_dedup :
    (∀ rows : List RawCustomer,
      (∀ r ∈ dedupCust rows, r.customer_id ≠ none ∧ r ∈ rows) ∧
      ((dedupCust rows).map (fun r => r.customer_id)).Nodup ∧
      (∀ k : String, (∃ r ∈ rows, r.customer_id = some k) ↔
        ∃ r ∈ dedupCust rows, r.customer_id = some k) ∧
      (∀ r ∈ dedupCust rows, ∀ s ∈ rows, s.customer_id = r.customer_id →
        r._load_timestamp ≤ s._load_timestamp) ∧
      (∀ r ∈ rows, r.customer_id ≠ none →
        (∀ s ∈ rows, s.customer_id = r.customer_id → s ≠ r →
          r._load_timestamp < s._load_timestamp) →
        r ∈ dedupCust rows)) ∧
    dedupCust [custT1, custT2] = [custT1] := by
  constructor
  · intro rows
    refine ⟨?_, ?_, ?_, ?_, ?_⟩
    · intro r hr
      obtain ⟨k, hk, hrep⟩ := mem_dedupBy.mp hr
      obtain ⟨hmem, hkey, -⟩ := repFor_eq_some hrep
      exact ⟨by simp [hkey], hmem⟩
    · exact nodup_dedupBy_keys _ _ rows
    · intro k
      constructor
      · rintro ⟨r, hr, hk⟩
        have hkmem : k ∈ distinctKeys (fun r : RawCustomer => r.customer_id) rows :=
          mem_distinctKeys.mpr ⟨r, hr, hk⟩
        obtain ⟨r', hrep⟩ := repFor_isSome (fun r => r._load_timestamp) hkmem
        exact ⟨r', mem_dedupBy.mpr ⟨k, hkmem, hrep⟩, (repFor_eq_some hrep).2.1⟩
      · rintro ⟨r, hr, hk⟩
        exact ⟨r, dedupBy_subset hr, hk⟩
    · intro r hr s hs hcid
      obtain ⟨k, hk, hrep⟩ := mem_dedupBy.mp hr
      obtain ⟨-, hkey, hmin⟩ := repFor_eq_some hrep
      exact hmin s hs (by rw [hcid, hkey])
    · intro r hr hnn huniq
      obtain ⟨k, hk⟩ := Option.ne_none_iff_exists'.mp hnn
      have hkmem : k ∈ distinctKeys (fun r : RawCustomer => r.customer_id) rows :=
        mem_distinctKeys.mpr ⟨r, hr, hk⟩
      obtain ⟨r', hrep⟩ := repFor_isSome (fun r => r._load_timestamp) hkmem
      obtain ⟨hmem', hkey', hmin'⟩ := repFor_eq_some hrep
      have : r' = r := by
        by_contra hne
        have h1 := huniq r' hmem' (by rw [hkey', hk]) hne
        have h2 := hmin' r hr hk
        omega
      rw [← this]
      exact mem_dedupBy.mpr ⟨k, hkmem, hrep⟩
  · decide

/-- Witness for C2 at the CUST-0001 fixture: the kept representative is
minimal in load timestamp among the two staged versions. -/
theorem claim2_witness :
    custT1 ∈ dedupCust [custT1, custT2] ∧
      custT1._load_timestamp ≤ custT2._load_timestamp :=
  ⟨by decide,
   (claim2_customer_dedup.1 [custT1, custT2]).2.2.2.1 custT1 (by decide) custT2
     (by decide) (by decide)⟩

/-- C1: after a transform run on empty target tables, every
fact_transactions row has a non-null customer_id resolving to exactly
one dim_customers row and an amount strictly inside the open interval
(-1000, 50000) euros, that is (-100000, 5000000) cents; on the fixture,
the staged amount 50000 is excluded and 49999.99 is included. -/
theorem claim1_fact_amount_and_fk :
    (∀ (rc : List RawCustomer) (rt : List RawTransaction) (now : ℤ),
      ∀ f ∈ runFact rc rt now,
        f.customer_id ≠ none ∧
        (∃ a, f.amount_eur = some a ∧ -100000 < a ∧ a < 5000000) ∧
        (∃! d, d ∈ runDim rc rt now ∧ d.customer_id = f.customer_id)) ∧
    (runFact [custC1] [txn50000, txn49999] 0).map
        (fun f => (f.transaction_id, f.amount_eur)) = [(some "T-2", some 4999999)] := by
  constructor
  · intro rc rt now f hf
    rw [runFact_eq] at hf
    by_cases hok :
        factInsertOkB (runDim rc rt now) [] (computeFactRows rt (runDim rc rt now) now)
    · rw [if_pos hok] at hf
      obtain ⟨t, ht, rfl⟩ := List.mem_map.mp hf
      have htf := List.mem_filter.mp ht
      obtain ⟨hcid, hmem, a, hamt, hlo, hhi⟩ := keepTxn_spec htf.2
      have hfcid : (toFactRow now t).customer_id = t.customer_id := rfl
      refine ⟨by rw [hfcid]; exact hcid, ⟨a, toFactRow_amount now hamt, hlo, hhi⟩, ?_⟩
      obtain ⟨d, hd, hdcid⟩ := List.mem_map.mp hmem
      have hnodup : ((runDim rc rt now).map (fun d => d.customer_id)).Nodup := by
        rw [runDim_eq]
        split
        · exact nodup_computeDim_cids rc now
        · simp
      refine ⟨d, ⟨hd, by rw [hfcid, hdcid]⟩, ?_⟩
      rintro d' ⟨hd', hdcid'⟩
      exact List.inj_on_of_nodup_map hnodup hd' hd (by rw [hdcid', hfcid, hdcid])
    · rw [if_neg hok] at hf
      simp at hf
  · decide

/-- Witness for C1: the 49999.99 fixture row is in fact_transactions and
satisfies the range and unique-resolution properties. -/
theorem claim1_witness :
    factT2 ∈ runFact [custC1] [txn50000, txn49999] 0 ∧
      (factT2.customer_id ≠ none ∧
       (∃ a, factT2.amount_eur = some a ∧ -100000 < a ∧ a < 5000000) ∧
       (∃! d, d ∈ runDim [custC1] [txn50000, txn49999] 0 ∧
          d.customer_id = factT2.customer_id)) :=
  ⟨by decide,
   claim1_fact_amount_and_fk.1 [custC1] [txn50000, txn49999] 0 factT2 (by decide)⟩

/-- C4 counterexample: a representative whose age text parses to the
out-of-range 200 violates the dim_customers CHECK constraint, the whole
insert fails, and the row does not appear in dim_customers at all —
refuting that an out-of-range age never causes the row to be rejected. -/
theorem claim4_cex :
    runDim [custAge200] [] 0 = [] ∧
      ¬ ∃ d ∈ runDim [custAge200] [] 0, d.customer_id = some "C-9" := by
  exact ⟨by decide, by decide⟩

/-- C4 (amended): for every representative staging customer row, an
unparseable age or an unparseable signup date never causes the row to be
rejected — the row appears in dim_customers with the offending field
null — provided the dim_customers insert succeeds, that is no
representative has a parseable age outside the CHECK range 0..150
(otherwise the whole insert is aborted and no rows load). -/
theorem claim4_amended :
    ∀ (rc : List RawCustomer) (rt : List RawTransaction) (now : ℤ) (r : RawCustomer),
      r ∈ dedupCust rc →
      dimInsertOkB [] (computeDimRows rc now) = true →
      ((r.age.bind parseInt32 = none →
          ∃ d ∈ runDim rc rt now, d.customer_id = r.customer_id ∧ d.age = none) ∧
       (r.signup_date.bind parseDate = none →
          ∃ d ∈ runDim rc rt now, d.customer_id = r.customer_id ∧ d.signup_date = none)) := by
  intro rc rt now r hr hok
  have hdim : runDim rc rt now = computeDimRows rc now := by rw [runDim_eq, if_pos hok]
  have hmem : normCust now r ∈ runDim rc rt now := by
    rw [hdim]
    exact List.mem_map.mpr ⟨r, hr, rfl⟩
  constructor
  · intro hage
    exact ⟨normCust now r, hmem, rfl, by simpa [normCust] using hage⟩
  · intro hdate
    exact ⟨normCust now r, hmem, rfl, by simpa [normCust] using hdate⟩

/-- Witness for C4 at a fixture with unparseable age and signup date:
the row is kept with both fields null. -/
theorem claim4_witness :
    custBadFields ∈ dedupCust [custBadFields] ∧
      dimInsertOkB [] (computeDimRows [custBadFields] 0) = true ∧
      (∃ d ∈ runDim [custBadFields] [] 0,
        d.customer_id = custBadFields.customer_id ∧ d.age = none) ∧
      (∃ d ∈ runDim [custBadFields] [] 0,
        d.customer_id = custBadFields.customer_id ∧ d.signup_date = none) := by
  have h := claim4_amended [custBadFields] [] 0 custBadFields (by decide) (by decide)
  exact ⟨by decide, by decide, h.1 (by decide), h.2 (by decide)⟩

/-- C5: a decimal-comma amount denoting a value strictly inside the
interval is dropped from fact_transactions, although the projection
REPLACE makes the very same text parse to 1234.56 euros (123456 cents):
the WHERE clause casts the raw amount without the comma replacement, so
the comma-tolerant projection is dead code.  The dimension row loads
fine, so the exclusion is the amount filter, not a failed insert. -/
theorem claim5_comma_amount_dropped :
    runFact [custC1] [txnComma] 0 = [] ∧
      parseDecimal102 "1234,56" = none ∧
      parseDecimal102 (replaceCommaDot "1234,56") = some 123456 ∧
      (-100000 : ℤ) < 123456 ∧ (123456 : ℤ) < 5000000 ∧
      runDim [custC1] [txnComma] 0 = [normCust 0 custC1] := by
  exact ⟨by decide, by decide, by decide, by decide, by decide, by decide⟩

/-- C7 counterexample: on the documented case-mismatch fixture (customer
CUST-0001, transaction key cust-0001, in-range amount), the raw orphan
check reports the transaction as orphaned, but the Transform Engine does
not match the key after normalization — it never normalizes customer_id
— and the row is not included in fact_transactions. -/
theorem claim7_cex :
    (findOrphanKeys [custT1] [txnLowerCid]).count = 1 ∧
      (findOrphanKeys [custT1] [txnLowerCid]).found = true ∧
      runDim [custT1] [txnLowerCid] 0 ≠ [] ∧
      runFact [custT1] [txnLowerCid] 0 = [] := by
  exact ⟨by decide, by decide, by decide, by decide⟩

/-- C7 (amended): both the raw orphan check and the transform FK filter
compare un-normalized customer_id values, so they agree: every row
included in fact_transactions carries a customer_id on which the raw
orphan predicate is false (no staging state exhibits the claimed
disagreement), the case-mismatched fixture row is reported orphaned and
also dropped by the transform, and the cleaned referential-integrity
check holds on the transform output. -/
theorem claim7_amended :
    (∀ (rc : List RawCustomer) (rt : List RawTransaction) (now : ℤ),
      ∀ f ∈ runFact rc rt now,
        orphanPredB (rc.map (fun r => r.customer_id)) f.customer_id = false) ∧
    (findOrphanKeys [custT1] [txnLowerCid]).count = 1 ∧
    runFact [custT1] [txnLowerCid] 0 = [] ∧
    (checkForeignKeys (runFact [custT1] [txnLowerCid] 0)
      (runDim [custT1] [txnLowerCid] 0)).valid = true := by
  refine ⟨?_, by decide, by decide, by decide⟩
  intro rc rt now f hf
  rw [runFact_eq] at hf
  by_cases hok :
      factInsertOkB (runDim rc rt now) [] (computeFactRows rt (runDim rc rt now) now)
  · rw [if_pos hok] at hf
    obtain ⟨t, ht, rfl⟩ := List.mem_map.mp hf
    have htf := List.mem_filter.mp ht
    obtain ⟨hcid, hmem, -⟩ := keepTxn_spec htf.2
    obtain ⟨x, hx⟩ := Option.ne_none_iff_exists'.mp hcid
    have hxraw : some x ∈ rc.map (fun r => r.customer_id) := by
      rw [runDim_eq] at hmem
      by_cases hdok : dimInsertOkB [] (computeDimRows rc now)
      · rw [if_pos hdok, computeDimRows_map_cid] at hmem
        rw [hx] at hmem
        obtain ⟨r, hrded, hrk⟩ := List.mem_map.mp hmem
        exact List.mem_map.mpr ⟨r, dedupBy_subset hrded, hrk⟩
      · rw [if_neg hdok] at hmem
        simp at hmem
    have hfcid : (toFactRow now t).customer_id = some x := hx ▸ rfl
    rw [hfcid]
    simp only [orphanPredB, sqlNotInB]
    rw [List.all_eq_false]
    exact ⟨some x, hxraw, by simp⟩
  · rw [if_neg hok] at hf
    simp at hf

/-- Witness for C7 (amended): instantiated at a run whose fact table is
nonempty. -/
theorem claim7_witness :
    factT2 ∈ runFact [custC1] [txn50000, txn49999] 0 ∧
      orphanPredB ([custC1].map (fun r => r.customer_id)) factT2.customer_id = false :=
  ⟨by decide, claim7_amended.1 [custC1] [txn50000, txn49999] 0 factT2 (by decide)⟩

/-- C6 counterexample: with one staging customer whose customer_id is
NULL and one transaction referencing a key no customer carries, the
three-valued NOT IN makes the query count zero orphans (found=false),
while the claim predicts count 1. -/
theorem claim6_cex :
    (findOrphanKeys [custNullId] [txnOrphanX]).count = 0 ∧
      (findOrphanKeys [custNullId] [txnOrphanX]).found = false ∧
      specOrphanCount [custNullId] [txnOrphanX] = 1 := by
  exact ⟨by decide, by decide, by decide⟩

/-- C6 (amended): found is true exactly when the count is positive; when
no staging customer has a null customer_id the count equals the
non-appearing-key count of the claim; but when some staging customer has
a null customer_id, the SQL NOT IN is never TRUE and the count is 0. -/
theorem claim6_amended :
    ∀ (custs : List RawCustomer) (txns : List RawTransaction),
      ((findOrphanKeys custs txns).found = true ↔ 0 < (findOrphanKeys custs txns).count) ∧
      ((∀ c ∈ custs, c.customer_id ≠ none) →
        (findOrphanKeys custs txns).count = specOrphanCount custs txns) ∧
      ((∃ c ∈ custs, c.customer_id = none) → (findOrphanKeys custs txns).count = 0) := by
  intro custs txns
  refine ⟨by simp [findOrphanKeys], ?_, ?_⟩
  · intro hnn
    unfold findOrphanKeys specOrphanCount
    simp only
    apply List.countP_congr
    intro t ht
    cases hc : t.customer_id with
    | none => simp [orphanPredB]
    | some x =>
      simp only [orphanPredB]
      by_cases hcont : some x ∈ custs.map (fun r => r.customer_id)
      · have h1 : sqlNotInB x (custs.map (fun r => r.customer_id)) = false := by
          rw [sqlNotInB, List.all_eq_false]
          exact ⟨some x, hcont, by simp⟩
        have h2 : (custs.map (fun r => r.customer_id)).contains (some x) = true := by
          exact List.contains_iff_exists_mem_beq.mpr ⟨some x, hcont, by simp⟩
        rw [h1, h2]
        rfl
      · have h1 : sqlNotInB x (custs.map (fun r => r.customer_id)) = true := by
          rw [sqlNotInB, List.all_eq_true]
          intro y hy
          obtain ⟨c, hcmem, rfl⟩ := List.mem_map.mp hy
          have hy1 : c.customer_id ≠ none := hnn c hcmem
          have hy2 : c.customer_id ≠ some x := fun e =>
            hcont (List.mem_map.mpr ⟨c, hcmem, e⟩)
          simp [hy1, hy2]
        have h2 : (custs.map (fun r => r.customer_id)).contains (some x) = false := by
          rw [Bool.eq_false_iff]
          intro hcc
          obtain ⟨y, hy, hbeq⟩ := List.contains_iff_exists_mem_beq.mp hcc
          exact hcont (by rwa [show some x = y from by simpa using hbeq])
        rw [h1, h2]
        rfl
  · rintro ⟨c, hcmem, hcnull⟩
    unfold findOrphanKeys
    simp only
    rw [List.countP_eq_zero]
    intro t ht
    cases hc : t.customer_id with
    | none => simp [orphanPredB]
    | some x =>
      simp only [orphanPredB]
      have h1 : sqlNotInB x (custs.map (fun r => r.customer_id)) = false := by
        rw [sqlNotInB, List.all_eq_false]
        exact ⟨none, List.mem_map.mpr ⟨c, hcmem, hcnull⟩, by simp⟩
      simp [h1]

/-- Witness for C6 (amended) on a null-free staging customer table. -/
theorem claim6_witness :
    (∀ c ∈ [custC1], c.customer_id ≠ none) ∧
      (findOrphanKeys [custC1] [txnOrphanX]).count = specOrphanCount [custC1] [txnOrphanX] ∧
      ((findOrphanKeys [custC1] [txnOrphanX]).found = true ↔
        0 < (findOrphanKeys [custC1] [txnOrphanX]).count) := by
  have h := claim6_amended [custC1] [txnOrphanX]
  exact ⟨by decide, h.2.1 (by decide), h.1⟩

/-- C3 counterexample: a store where DDL fails makes transform_all raise
out of the unguarded create_tables, and a store without a readable
dim_customers table makes validate_transformed_data raise out of the
unguarded uniqueness queries — exceptions escape to the caller. -/
theorem claim3_cex :
    transformAll brokenDB 0 = .error "create_tables failed" ∧
      validateTransformedData emptyDB = .error "dim_customers missing" :=
  ⟨rfl, rfl⟩

/-- C3 (amended): every query failure inside a guarded load step or
guarded validation check is caught (transform_all succeeds whenever
table creation does, validate_raw_data always returns a report), but a
create_tables failure escapes transform_all and a failure of the
unguarded dim_customers uniqueness queries escapes
validate_transformed_data. -/
theorem claim3_amended :
    ∀ (db : DB) (now : ℤ),
      (db.ddlOk = true → ∃ r, transformAll db now = .ok r) ∧
      (db.ddlOk = false → transformAll db now = .error "create_tables failed") ∧
      (∀ dim, db.dimCustomers = some dim → ∃ r, validateTransformedData db = .ok r) ∧
      (db.dimCustomers = none →
        validateTransformedData db = .error "dim_customers missing") ∧
      (∃ r, validateRawData db = .ok r) := by
  intro db now
  refine ⟨?_, ?_, ?_, ?_, ⟨_, rfl⟩⟩
  · intro h
    simp only [transformAll, createTables, h, if_true]
    exact ⟨_, rfl⟩
  · intro h
    simp [transformAll, createTables, h]
  · intro dim h
    unfold validateTransformedData
    rw [h]
    exact ⟨_, rfl⟩
  · intro h
    unfold validateTransformedData
    rw [h]

/-- Witness for C3 (amended): on a healthy store both passes succeed. -/
theorem claim3_witness :
    okDB.ddlOk = true ∧ (∃ r, transformAll okDB 0 = .ok r) ∧
      okDB.dimCustomers = some [] ∧ (∃ r, validateTransformedData okDB = .ok r) := by
  have h := claim3_amended okDB 0
  exact ⟨rfl, h.1 rfl, rfl, h.2.2.1 [] rfl⟩

/-- C9: the customer-profile aggregation yields exactly one row per
dim_customers row, including zero-transaction customers; whenever a
profile row's qualifying transaction count is 0, its sports affinity
ratio and average inter-transaction interval are null, and the interval
is also null when the count is exactly 1 — the null-guarded divisions
(NULLIF) never divide by zero. -/
theorem claim9_profile :
    ∀ (dims : List DimCustomer) (facts : List FactTxn) (now : ℤ),
      ((dims.map (fun d => d.customer_id)).Nodup →
        (computeProfile dims facts now).length = dims.length) ∧
      (∀ c ∈ dims, ∃! p, p ∈ computeProfile dims facts now ∧
        p.customer_id = c.customer_id) ∧
      ((∀ f ∈ facts, f.transaction_id ≠ none) →
        ∀ p ∈ computeProfile dims facts now,
          (p.txn_count = 0 →
            p.sports_affinity_ratio = none ∧ p.avg_days_between_txns = none) ∧
          (p.txn_count = 1 → p.avg_days_between_txns = none)) := by
  intro dims facts now
  refine ⟨?_, ?_, ?_⟩
  · intro hnd
    unfold computeProfile
    rw [List.length_map, List.dedup_eq_self.mpr hnd, List.length_map]
  · intro c hc
    have hmem : c.customer_id ∈ (dims.map (fun d => d.customer_id)).dedup :=
      List.mem_dedup.mpr (List.mem_map.mpr ⟨c, hc, rfl⟩)
    refine ⟨profileFor now facts c.customer_id,
      ⟨List.mem_map.mpr ⟨c.customer_id, hmem, rfl⟩, rfl⟩, ?_⟩
    rintro p' ⟨hp', hcid'⟩
    obtain ⟨cid', hmem', rfl⟩ := List.mem_map.mp hp'
    have : cid' = c.customer_id := hcid'
    rw [this]
  · intro hTid p hp
    obtain ⟨cid', hmem', rfl⟩ := List.mem_map.mp hp
    constructor
    · intro hcnt
      have hcnt' : (((facts.filter (fun f => sqlEqOptStr cid' f.customer_id)).filterMap
          (fun f => f.transaction_id)).dedup).length = 0 := hcnt
      have hmnil : facts.filter (fun f => sqlEqOptStr cid' f.customer_id) = [] := by
        by_contra hne
        obtain ⟨f0, hf0⟩ := List.exists_mem_of_ne_nil _ hne
        have hf0f : f0 ∈ facts := (List.mem_filter.mp hf0).1
        obtain ⟨y, hy⟩ := Option.ne_none_iff_exists'.mp (hTid f0 hf0f)
        have hymem : y ∈ ((facts.filter (fun f => sqlEqOptStr cid' f.customer_id)).filterMap
            (fun f => f.transaction_id)).dedup := by
          rw [List.mem_dedup]
          exact List.mem_filterMap.mpr ⟨f0, hf0, hy⟩
        rw [List.length_eq_zero] at hcnt'
        rw [hcnt'] at hymem
        simp at hymem
      constructor
      · show (profileFor now facts cid').sports_affinity_ratio = none
        simp only [profileFor]
        rw [if_pos hcnt']
      · show (profileFor now facts cid').avg_days_between_txns = none
        simp only [profileFor, hmnil]
        simp [sqlMax, sqlMin]
    · intro hcnt1
      have hcnt' : (((facts.filter (fun f => sqlEqOptStr cid' f.customer_id)).filterMap
          (fun f => f.transaction_id)).dedup).length = 1 := hcnt1
      show (profileFor now facts cid').avg_days_between_txns = none
      simp only [profileFor, hcnt']
      split <;> rfl

/-- Witness for C9 on a one-customer dimension with no transactions. -/
theorem claim9_witness :
    (([dimSolo].map (fun d => d.customer_id)).Nodup) ∧
      (computeProfile [dimSolo] [] 0).length = 1 ∧
      (∀ p ∈ computeProfile [dimSolo] [] 0, p.txn_count = 0 →
        p.sports_affinity_ratio = none ∧ p.avg_days_between_txns = none) := by
  have h := claim9_profile [dimSolo] [] 0
  refine ⟨by decide, ?_, fun p hp hcnt => (h.2.2 (by simp) p hp).1 hcnt⟩
  have hl := h.1 (by decide)
  simpa using hl

/-- Membership in the null-profile flag list, indexed by column
position. -/
theorem mem_buildFlags (rows : List (List (Option α))) :
    ∀ (cs : List String) (i0 : ℕ) (fl : NullFlag),
      fl ∈ buildFlags rows cs i0 ↔
        ∃ j, ∃ hj : j < cs.length,
          startsUnderscore (cs.get ⟨j, hj⟩) = false ∧
          3 / 10 < nullRate rows (i0 + j) ∧
          fl = { name := cs.get ⟨j, hj⟩, null_count := colNull rows (i0 + j),
                 null_rate := nullRate rows (i0 + j) } := by
  intro cs
  induction cs with
  | nil =>
    intro i0 fl
    simp [buildFlags]
  | cons c cs ih =>
    intro i0 fl
    by_cases hu : startsUnderscore c = true
    · rw [show buildFlags rows (c :: cs) i0 = buildFlags rows cs (i0 + 1) from by
        rw [buildFlags, if_pos hu]]
      rw [ih]
      constructor
      · rintro ⟨j, hj, h1, h2, h3⟩
        refine ⟨j + 1, Nat.succ_lt_succ hj, by simpa using h1, ?_, ?_⟩
        · rw [show i0 + (j + 1) = i0 + 1 + j from by omega]
          exact h2
        · rw [show i0 + (j + 1) = i0 + 1 + j from by omega]
          simpa using h3
      · rintro ⟨j, hj, h1, h2, h3⟩
        cases j with
        | zero =>
          exact absurd hu (by simpa using h1)
        | succ j' =>
          refine ⟨j', Nat.lt_of_succ_lt_succ hj, by simpa using h1, ?_, ?_⟩
          · rw [show i0 + 1 + j' = i0 + (j' + 1) from by omega]
            exact h2
          · rw [show i0 + 1 + j' = i0 + (j' + 1) from by omega]
            simpa using h3
    · by_cases hrt : 3 / 10 < nullRate rows i0
      · rw [show buildFlags rows (c :: cs) i0 =
            ({ name := c, null_count := colNull rows i0, null_rate := nullRate rows i0} :
              NullFlag) :: buildFlags rows cs (i0 + 1) from by
          rw [buildFlags, if_neg hu, if_pos hrt]]
        rw [List.mem_cons, ih]
        constructor
        · rintro (rfl | ⟨j, hj, h1, h2, h3⟩)
          · refine ⟨0, by simp, ?_, by simpa using hrt, by simp⟩
            simpa using Bool.not_eq_true _ ▸ hu
          · refine ⟨j + 1, Nat.succ_lt_succ hj, by simpa using h1, ?_, ?_⟩
            · rw [show i0 + (j + 1) = i0 + 1 + j from by omega]
              exact h2
            · rw [show i0 + (j + 1) = i0 + 1 + j from by omega]
              simpa using h3
        · rintro ⟨j, hj, h1, h2, h3⟩
          cases j with
          | zero =>
            left
            simpa using h3
          | succ j' =>
            right
            refine ⟨j', Nat.lt_of_succ_lt_succ hj, by simpa using h1, ?_, ?_⟩
            · rw [show i0 + 1 + j' = i0 + (j' + 1) from by omega]
              exact h2
            · rw [show i0 + 1 + j' = i0 + (j' + 1) from by omega]
              simpa using h3
      · rw [show buildFlags rows (c :: cs) i0 = buildFlags rows cs (i0 + 1) from by
          rw [buildFlags, if_neg hu, if_neg hrt]]
        rw [ih]
        constructor
        · rintro ⟨j, hj, h1, h2, h3⟩
          refine ⟨j + 1, Nat.succ_lt_succ hj, by simpa using h1, ?_, ?_⟩
          · rw [show i0 + (j + 1) = i0 + 1 + j from by omega]
            exact h2
          · rw [show i0 + (j + 1) = i0 + 1 + j from by omega]
            simpa using h3
        · rintro ⟨j, hj, h1, h2, h3⟩
          cases j with
          | zero =>
            exact absurd (by simpa using h2) hrt
          | succ j' =>
            refine ⟨j', Nat.lt_of_succ_lt_succ hj, by simpa using h1, ?_, ?_⟩
            · rw [show i0 + 1 + j' = i0 + (j' + 1) from by omega]
              exact h2
            · rw [show i0 + 1 + j' = i0 + (j' + 1) from by omega]
              simpa using h3

/-- C8: for every table and non-internal column, the per-table profile
flags the column as high-null exactly when its null rate is strictly
greater than 0.30 (the flag carries that column's null count and rate);
a row count of 0 yields null rate 0 for every column (guarded, never a
division by zero), and for a nonempty table the rate is the plain
null-count fraction. -/
theorem claim8_null_rate :
    (∀ (cols : List String) (rows : List (List (Option String))) (i : ℕ)
        (hi : i < cols.length),
      cols.Nodup →
      ((∃ fl ∈ (validateTable cols rows).high_null_columns,
          fl.name = cols.get ⟨i, hi⟩) ↔
        (startsUnderscore (cols.get ⟨i, hi⟩) = false ∧ 3 / 10 < nullRate rows i)) ∧
      (∀ fl ∈ (validateTable cols rows).high_null_columns,
        fl.name = cols.get ⟨i, hi⟩ →
        fl = { name := cols.get ⟨i, hi⟩, null_count := colNull rows i,
               null_rate := nullRate rows i })) ∧
    (∀ (rows : List (List (Option String))) (i : ℕ), rows = [] → nullRate rows i = 0) ∧
    (∀ (rows : List (List (Option String))) (i : ℕ), rows ≠ [] →
      nullRate rows i = (colNull rows i : ℚ) / (rows.length : ℚ)) := by
  refine ⟨?_, ?_, ?_⟩
  · intro cols rows i hi hnd
    have hinj := List.nodup_iff_injective_get.mp hnd
    have hbf : ∀ fl : NullFlag,
        fl ∈ (validateTable cols rows).high_null_columns ↔
          ∃ j, ∃ hj : j < cols.length,
            startsUnderscore (cols.get ⟨j, hj⟩) = false ∧
            3 / 10 < nullRate rows (0 + j) ∧
            fl = { name := cols.get ⟨j, hj⟩, null_count := colNull rows (0 + j),
                   null_rate := nullRate rows (0 + j) } :=
      fun fl => mem_buildFlags rows cols 0 fl
    constructor
    · constructor
      · rintro ⟨fl, hfl, hname⟩
        obtain ⟨j, hj, h1, h2, h3⟩ := (hbf fl).mp hfl
        have hgets : cols.get ⟨j, hj⟩ = cols.get ⟨i, hi⟩ := by
          rw [← hname, h3]
        have hij : j = i := congrArg Fin.val (hinj hgets)
        subst hij
        exact ⟨h1, by simpa using h2⟩
      · rintro ⟨h1, h2⟩
        refine ⟨⟨cols.get ⟨i, hi⟩, colNull rows i, nullRate rows i⟩, ?_, rfl⟩
        exact (hbf _).mpr ⟨i, hi, h1, by simpa using h2, by simp⟩
    · intro fl hfl hname
      obtain ⟨j, hj, h1, h2, h3⟩ := (hbf fl).mp hfl
      have hgets : cols.get ⟨j, hj⟩ = cols.get ⟨i, hi⟩ := by
        rw [← hname, h3]
      have hij : j = i := congrArg Fin.val (hinj hgets)
      subst hij
      simpa using h3
  · intro rows i h
    simp [nullRate, h]
  · intro rows i h
    rw [nullRate, if_pos (List.length_pos.mpr h)]

/-- Witness for C8: a column at exactly 30 percent nulls (3 of 10) is
not flagged, one at 40 percent is. -/
theorem claim8_witness :
    (¬ ∃ fl ∈ (validateTable ["email"] rowsBoundary).high_null_columns,
        fl.name = "email") ∧
      (∃ fl ∈ (validateTable ["email"] rowsFlagged).high_null_columns,
        fl.name = "email") := by
  have h1 := (claim8_null_rate.1 ["email"] rowsBoundary 0 (by decide) (by decide)).1
  have h2 := (claim8_null_rate.1 ["email"] rowsFlagged 0 (by decide) (by decide)).1
  have hb1 : colNull rowsBoundary 0 = 3 := by decide
  have hb2 : rowsBoundary.length = 10 := by decide
  have hf1 : colNull rowsFlagged 0 = 4 := by decide
  have hf2 : rowsFlagged.length = 10 := by decide
  constructor
  · rw [show (["email"].get ⟨0, by decide⟩) = "email" from rfl] at h1
    rw [h1]
    rintro ⟨-, hr⟩
    rw [nullRate, if_pos (by rw [hb2]; norm_num), hb1, hb2] at hr
    norm_num at hr
  · rw [show (["email"].get ⟨0, by decide⟩) = "email" from rfl] at h2
    rw [h2]
    refine ⟨by decide, ?_⟩
    rw [nullRate, if_pos (by rw [hf2]; norm_num), hf1, hf2]
    norm_num
